import Mathlib

/-!
Verification development for a Whitted-style recursive ray tracer
(`src/main.cpp`).  The C++ code works on 32-bit floats; here the arithmetic
is modelled over the real numbers, with `Real.sqrt` for `sqrtf` and
`Real.rpow` for `powf`.  `Sphere::RayIntersect`'s `bool` result together with
its out-parameter `t0` becomes an `Option ℝ`; `SceneIntersect`'s in-out
parameters become an explicit `HitState` threaded through a fold; `CastRay`'s
recursion is reproduced verbatim with its depth cap as the termination
measure.
-/

namespace RayTracer

/-- Modelled from the spec: `geometry.hpp` (the vector header included by
`main.cpp`) is not in the repository snapshot; the 3-component float vector
and its operations follow spec section 4.1 (component-wise add/subtract,
scalar multiply, unary negate, dot product, Euclidean norm,
normalize `a/‖a‖`). -/
@[ext]
structure Vec3 where
  x : ℝ
  y : ℝ
  z : ℝ

/-- Modelled from the spec: 4-component vector of `geometry.hpp`, used only
for the material albedo; components are accessed by position 0..3. -/
@[ext]
structure Vec4 where
  x : ℝ
  y : ℝ
  z : ℝ
  w : ℝ

namespace Vec3

def add (a b : Vec3) : Vec3 := ⟨a.x + b.x, a.y + b.y, a.z + b.z⟩

def sub (a b : Vec3) : Vec3 := ⟨a.x - b.x, a.y - b.y, a.z - b.z⟩

def neg (a : Vec3) : Vec3 := ⟨-a.x, -a.y, -a.z⟩

/-- Scalar multiply, the C++ `operator*(float)`. -/
def smul (a : Vec3) (c : ℝ) : Vec3 := ⟨a.x * c, a.y * c, a.z * c⟩

/-- Dot product, the C++ `operator*` between two vectors. -/
def dot (a b : Vec3) : ℝ := a.x * b.x + a.y * b.y + a.z * b.z

/-- Euclidean norm `sqrt(a·a)`. -/
noncomputable def norm (a : Vec3) : ℝ := Real.sqrt (dot a a)

/-- `normalise` from `geometry.hpp`: `a * (1/‖a‖)` (spec section 4.1:
undefined for the zero vector, callers guarantee non-zero input). -/
noncomputable def normalise (a : Vec3) : Vec3 := a.smul (1 / a.norm)

end Vec3

/-- Light source for illumination (`struct Light`). -/
structure Light where
  position : Vec3
  intensity : ℝ

/-- Rendered colour for an object in the scene (`struct Material`). -/
structure Material where
  refractive_index : ℝ
  albedo : Vec4
  diffuse_colour : Vec3
  specular_exponent : ℝ

/-- The default-constructed `Material()`:
`refractive_index = 1`, `albedo = (1,0,0,0)`, zero colour, zero exponent. -/
def defaultMaterial : Material := ⟨1, ⟨1, 0, 0, 0⟩, ⟨0, 0, 0⟩, 0⟩

/-- Object used to populate the scene (`class Sphere`). -/
structure Sphere where
  center : Vec3
  radius : ℝ
  material : Material

/-- `Sphere::RayIntersect(origin, direction, t0)`: geometric ray-sphere
intersection.  `some t0` models `return true` with out-parameter `t0`;
`none` models `return false`. -/
noncomputable def Sphere.RayIntersect (s : Sphere) (origin direction : Vec3) : Option ℝ :=
  let L := s.center.sub origin
  let tca := L.dot direction
  let d := L.dot L - tca * tca
  if d > s.radius * s.radius then
    none
  else
    let thc := Real.sqrt (s.radius * s.radius - d)
    let t0 := tca - thc
    let t1 := tca + thc
    -- If t0 is negative, use t1 instead
    let t0' := if t0 < 0 then t1 else t0
    -- If both are negative, no intersection
    if t0' < 0 then none else some t0'

/-- Use Snell's Law to determine the refraction vector (`Refract`). -/
noncomputable def Refract (incident normal : Vec3) (refractive_index : ℝ) : Vec3 :=
  let cos_raw := -(max (-1 : ℝ) (min (1 : ℝ) (incident.dot normal)))
  -- If the ray is inside the object, swap indices and invert the normal
  let cos_i := if cos_raw < 0 then -cos_raw else cos_raw
  let eta_i := if cos_raw < 0 then refractive_index else (1 : ℝ)
  let eta_t := if cos_raw < 0 then (1 : ℝ) else refractive_index
  let n := if cos_raw < 0 then normal.neg else normal
  let eta := eta_i / eta_t
  let k := 1 - eta * eta * (1 - cos_i * cos_i)
  if k < 0 then ⟨0, 0, 0⟩
  else (incident.smul eta).add (n.smul (eta * cos_i - Real.sqrt k))

/-- The clamped incidence cosine of `Refract` before the inside-the-object
adjustment: `cos_i = -max(-1, min(1, incident·normal))`. -/
def RefractCosRaw (incident normal : Vec3) : ℝ :=
  -(max (-1 : ℝ) (min (1 : ℝ) (incident.dot normal)))

/-- The incidence cosine after the normal-side adjustment (negated when the
raw cosine is negative). -/
noncomputable def RefractCosI (incident normal : Vec3) : ℝ :=
  if RefractCosRaw incident normal < 0 then -(RefractCosRaw incident normal)
  else RefractCosRaw incident normal

/-- The index ratio `eta = eta_i/eta_t` after the normal-side adjustment
(swapped when the raw cosine is negative). -/
noncomputable def RefractEta (incident normal : Vec3) (refractive_index : ℝ) : ℝ :=
  if RefractCosRaw incident normal < 0 then refractive_index / 1
  else 1 / refractive_index

/-- The working normal after the normal-side adjustment (flipped when the raw
cosine is negative). -/
noncomputable def RefractN (incident normal : Vec3) : Vec3 :=
  if RefractCosRaw incident normal < 0 then normal.neg else normal

/-- The discriminant `k = 1 - eta²(1 - cos_i²)` of `Refract`, computed after
the normal-side adjustment. -/
noncomputable def RefractDiscriminant (incident normal : Vec3) (refractive_index : ℝ) : ℝ :=
  1 - RefractEta incident normal refractive_index * RefractEta incident normal refractive_index *
    (1 - RefractCosI incident normal * RefractCosI incident normal)

/-- Determine reflection vector using incident angle and surface normal
(`Reflect`): `incident - normal*2*(incident·normal)`. -/
def Reflect (incident normal : Vec3) : Vec3 :=
  incident.sub ((normal.smul 2).smul (incident.dot normal))

/-- The state of `SceneIntersect`'s local `spheres_distance` together with
the in-out parameters `point_hit`, `normal`, `material`. -/
structure HitState where
  dist : ℝ
  point : Vec3
  normal : Vec3
  material : Material

/-- `std::numeric_limits<float>::max() = (2^24 - 1) * 2^104`, the initial
value of `spheres_distance`. -/
def FLT_MAX : ℝ := (2 ^ 24 - 1) * 2 ^ 104

/-- One iteration of the `SceneIntersect` loop: if sphere `s` intersects the
ray strictly closer than the best distance so far, record its distance, hit
point, outward normal and material. -/
noncomputable def SceneStep (origin direction : Vec3) (st : HitState) (s : Sphere) : HitState :=
  match s.RayIntersect origin direction with
  | none => st
  | some dist_i =>
    if dist_i < st.dist then
      let point_hit := origin.add (direction.smul dist_i)
      ⟨dist_i, point_hit, (point_hit.sub s.center).normalise, s.material⟩
    else st

/-- `SceneIntersect(origin, direction, spheres, point_hit, normal, material)`:
the `Bool` is the C++ return value `spheres_distance < 1000`; the `HitState`
carries the final values of the in-out parameters (whose incoming values are
the last three arguments). -/
noncomputable def SceneIntersect (origin direction : Vec3) (spheres : List Sphere)
    (point_hit normal : Vec3) (material : Material) : Bool × HitState :=
  let st := spheres.foldl (SceneStep origin direction) ⟨FLT_MAX, point_hit, normal, material⟩
  (if st.dist < 1000 then true else false, st)

/-- Maximum recursive calls per reflected/refracted ray
(`#define MAXIMUM_DEPTH 4`). -/
def MAXIMUM_DEPTH : ℕ := 4

/-- The background colour `(0.2, 0.7, 0.8)` returned on a miss or when the
depth cap is exceeded. -/
def backgroundColour : Vec3 := ⟨0.2, 0.7, 0.8⟩

/-- The secondary-ray origin bias used identically for the reflection,
refraction and shadow rays in `CastRay`:
`outgoing·normal < 0 ? point - normal*1e-3 : point + normal*1e-3`. -/
noncomputable def offsetOrigin (point normal outgoing : Vec3) : Vec3 :=
  if outgoing.dot normal < 0 then point.sub (normal.smul 1e-3)
  else point.add (normal.smul 1e-3)

/-- One iteration of `CastRay`'s light loop: the pair of (diffuse, specular)
contributions of `light`, both zero when the light is occluded (a shadow-ray
scene query hits strictly closer than the light). -/
noncomputable def LightContribution (direction point normal : Vec3) (spheres : List Sphere)
    (material : Material) (light : Light) : ℝ × ℝ :=
  let light_direction := (light.position.sub point).normalise
  let light_distance := (light.position.sub point).norm
  let shadow_origin := offsetOrigin point normal light_direction
  let q := SceneIntersect shadow_origin light_direction spheres ⟨0, 0, 0⟩ ⟨0, 0, 0⟩ defaultMaterial
  if q.1 = true ∧ (q.2.point.sub shadow_origin).norm < light_distance then (0, 0)
  else
    (light.intensity * max 0 (light_direction.dot normal),
     Real.rpow (max 0 (-((Reflect light_direction.neg normal).dot direction)))
       material.specular_exponent * light.intensity)

/-- `CastRay(origin, direction, spheres, lights, depth)`: the Whitted-style
recursive ray caster.  The two `if`s mirror the short-circuit
`depth > MAXIMUM_DEPTH || !SceneIntersect(...)`; the in-out locals `point`,
`normal`, `material` start default-initialised. -/
noncomputable def CastRay (origin direction : Vec3) (spheres : List Sphere)
    (lights : List Light) (depth : ℕ) : Vec3 :=
  if h : depth > MAXIMUM_DEPTH then backgroundColour
  else
    let q := SceneIntersect origin direction spheres ⟨0, 0, 0⟩ ⟨0, 0, 0⟩ defaultMaterial
    if q.1 = false then backgroundColour
    else
      let point := q.2.point
      let normal := q.2.normal
      let material := q.2.material
      -- Recursively call CastRay for each reflected ray
      let reflect_direction := Reflect direction normal
      let reflect_origin := offsetOrigin point normal reflect_direction
      let reflect_colour := CastRay reflect_origin reflect_direction spheres lights (depth + 1)
      -- Recursively call CastRay for each refracted ray
      let refract_direction := (Refract direction normal material.refractive_index).normalise
      let refract_origin := offsetOrigin point normal refract_direction
      let refract_colour := CastRay refract_origin refract_direction spheres lights (depth + 1)
      -- Diffuse and specular light intensities, summed over the lights
      let contribs := lights.map (LightContribution direction point normal spheres material)
      let diffuse_light_intensity := (contribs.map Prod.fst).sum
      let specular_light_intensity := (contribs.map Prod.snd).sum
      (((material.diffuse_colour.smul diffuse_light_intensity).smul material.albedo.x).add
        (((Vec3.mk 1 1 1).smul specular_light_intensity).smul material.albedo.y)).add
        ((reflect_colour.smul material.albedo.z).add (refract_colour.smul material.albedo.w))
termination_by MAXIMUM_DEPTH + 1 - depth
decreasing_by
  all_goals simp only [MAXIMUM_DEPTH] at *
  all_goals omega

/-- `CastRay` instrumented with resource counters, mirroring its structure
exactly: the second component counts the `SceneIntersect` calls made directly
by `CastRay` (one per invocation that passes the depth check), the third
counts the shadow-ray `SceneIntersect` calls made by the light loop (one per
light per hit). -/
noncomputable def CastRayCounted (origin direction : Vec3) (spheres : List Sphere)
    (lights : List Light) (depth : ℕ) : Vec3 × ℕ × ℕ :=
  if _h : depth > MAXIMUM_DEPTH then (backgroundColour, 0, 0)
  else
    let q := SceneIntersect origin direction spheres ⟨0, 0, 0⟩ ⟨0, 0, 0⟩ defaultMaterial
    if q.1 = false then (backgroundColour, 1, 0)
    else
      let point := q.2.point
      let normal := q.2.normal
      let material := q.2.material
      let reflect_direction := Reflect direction normal
      let reflect_origin := offsetOrigin point normal reflect_direction
      let rc := CastRayCounted reflect_origin reflect_direction spheres lights (depth + 1)
      let refract_direction := (Refract direction normal material.refractive_index).normalise
      let refract_origin := offsetOrigin point normal refract_direction
      let tc := CastRayCounted refract_origin refract_direction spheres lights (depth + 1)
      let contribs := lights.map (LightContribution direction point normal spheres material)
      let diffuse_light_intensity := (contribs.map Prod.fst).sum
      let specular_light_intensity := (contribs.map Prod.snd).sum
      ((((material.diffuse_colour.smul diffuse_light_intensity).smul material.albedo.x).add
        (((Vec3.mk 1 1 1).smul specular_light_intensity).smul material.albedo.y)).add
        ((rc.1.smul material.albedo.z).add (tc.1.smul material.albedo.w)),
       1 + rc.2.1 + tc.2.1,
       lights.length + rc.2.2 + tc.2.2)
termination_by MAXIMUM_DEPTH + 1 - depth
decreasing_by
  all_goals simp only [MAXIMUM_DEPTH] at *
  all_goals omega

/-! ## Simp lemmas for evaluating the model on concrete inputs -/

theorem Vec3.dot_def (a b : Vec3) : a.dot b = a.x * b.x + a.y * b.y + a.z * b.z := rfl

theorem Vec3.sub_def (a b : Vec3) : a.sub b = ⟨a.x - b.x, a.y - b.y, a.z - b.z⟩ := rfl

theorem Vec3.add_def (a b : Vec3) : a.add b = ⟨a.x + b.x, a.y + b.y, a.z + b.z⟩ := rfl

theorem Vec3.smul_def (a : Vec3) (c : ℝ) : a.smul c = ⟨a.x * c, a.y * c, a.z * c⟩ := rfl

/-! ## Claim theorems -/

/-- Claim C2: for every scene, ray, and depth, if `depth > MAXIMUM_DEPTH`
or the scene query reports no hit, `CastRay` returns exactly the background
colour `(0.2, 0.7, 0.8)`. -/
theorem castRay_background_on_depth_or_miss (origin direction : Vec3)
    (spheres : List Sphere) (lights : List Light) (depth : ℕ)
    (h : MAXIMUM_DEPTH < depth ∨
      (SceneIntersect origin direction spheres ⟨0, 0, 0⟩ ⟨0, 0, 0⟩ defaultMaterial).1 = false) :
    CastRay origin direction spheres lights depth = ⟨0.2, 0.7, 0.8⟩ := by
  rw [CastRay]
  rcases h with h | h
  · simp [h, backgroundColour]
  · by_cases hd : depth > MAXIMUM_DEPTH
    · simp [hd, backgroundColour]
    · simp [hd, h, backgroundColour]

/-- Witness for C2: at depth 5 with an empty scene, `CastRay` is the
background colour. -/
theorem castRay_background_on_depth_or_miss_witness :
    CastRay ⟨0, 0, 0⟩ ⟨0, 0, 1⟩ [] [] 5 = ⟨0.2, 0.7, 0.8⟩ :=
  castRay_background_on_depth_or_miss _ _ _ _ 5
    (Or.inl (by norm_num [MAXIMUM_DEPTH]))

/-- Shared helper: `Refract` written with the extracted adjusted cosine,
index ratio, working normal and discriminant. -/
theorem refract_eq_ite_discriminant (incident normal : Vec3)
    (refractive_index : ℝ) :
    Refract incident normal refractive_index =
      if RefractDiscriminant incident normal refractive_index < 0 then ⟨0, 0, 0⟩
      else (incident.smul (RefractEta incident normal refractive_index)).add
        ((RefractN incident normal).smul
          (RefractEta incident normal refractive_index * RefractCosI incident normal -
            Real.sqrt (RefractDiscriminant incident normal refractive_index))) := by
  rcases lt_or_le (RefractCosRaw incident normal) 0 with hc | hc
  · have hc' := hc
    simp only [RefractCosRaw] at hc'
    simp only [Refract, RefractDiscriminant, RefractEta, RefractCosI, RefractN,
      RefractCosRaw, hc', if_true, hc]
  · have hc' : ¬(-(max (-1 : ℝ) (min (1 : ℝ) (incident.dot normal))) < 0) := by
      simp only [RefractCosRaw] at hc
      exact not_lt.mpr hc
    have hc'' : ¬(RefractCosRaw incident normal < 0) := by
      simp only [RefractCosRaw]
      exact hc'
    simp only [Refract, RefractDiscriminant, RefractEta, RefractCosI, RefractN,
      RefractCosRaw, hc', hc'', if_false]

/-- Claim C3 (amended): `Refract` returns the zero vector when the
discriminant `k` (computed after the normal-side adjustment) is negative;
otherwise it returns `incident*eta + n*(eta*cos_i - sqrt k)` — which can
itself be the zero vector in degenerate non-TIR cases. -/
theorem refract_discriminant_characterisation (incident normal : Vec3)
    (refractive_index : ℝ) :
    Refract incident normal refractive_index =
      if RefractDiscriminant incident normal refractive_index < 0 then ⟨0, 0, 0⟩
      else (incident.smul (RefractEta incident normal refractive_index)).add
        ((RefractN incident normal).smul
          (RefractEta incident normal refractive_index * RefractCosI incident normal -
            Real.sqrt (RefractDiscriminant incident normal refractive_index))) :=
  refract_eq_ite_discriminant incident normal refractive_index

/-- Counterexample for C3 as stated: `Refract` can return the zero vector
even when the discriminant is non-negative (no total internal reflection),
so "returns the zero vector exactly when k is negative" fails.  Here the
zero incident vector with index 1 gives `k = 0` and result zero. -/
theorem refract_zero_without_tir :
    Refract ⟨0, 0, 0⟩ ⟨0, 0, 1⟩ 1 = ⟨0, 0, 0⟩ ∧
    0 ≤ RefractDiscriminant ⟨0, 0, 0⟩ ⟨0, 0, 1⟩ 1 := by
  constructor
  · simp [Refract, Vec3.dot_def, Vec3.smul_def, Vec3.add_def, min_def, max_def,
      Real.sqrt_zero]
  · norm_num [RefractDiscriminant, RefractEta, RefractCosI, RefractCosRaw,
      Vec3.dot_def, min_def, max_def]

/-- Claim C6: `Refract` with `refractive_index = 1` returns the incident
direction unchanged for any unit normal and non-degenerate incidence
(clamped dot product, no total internal reflection). -/
theorem refract_index_one_is_identity (incident normal : Vec3)
    (hn : normal.dot normal = 1) (hcos : |incident.dot normal| ≤ 1)
    (hk : 0 ≤ RefractDiscriminant incident normal 1) :
    Refract incident normal 1 = incident := by
  rw [refract_eq_ite_discriminant]
  have hcosI : 0 ≤ RefractCosI incident normal := by
    unfold RefractCosI
    split_ifs with h
    · linarith
    · linarith [not_lt.mp h]
  have heta : RefractEta incident normal 1 = 1 := by
    unfold RefractEta
    split_ifs <;> norm_num
  have hdisc : RefractDiscriminant incident normal 1 =
      RefractCosI incident normal * RefractCosI incident normal := by
    unfold RefractDiscriminant
    rw [heta]; ring
  rw [if_neg (by rw [hdisc]; exact not_lt.mpr (mul_self_nonneg _))]
  rw [heta, hdisc]
  rw [Real.sqrt_mul_self hcosI]
  ext <;> simp [Vec3.add_def, Vec3.smul_def] <;> ring

/-- Witness for C6: a head-on ray through a unit normal with index 1 passes
straight through. -/
theorem refract_index_one_is_identity_witness :
    Refract ⟨0, 0, -1⟩ ⟨0, 0, 1⟩ 1 = ⟨0, 0, -1⟩ :=
  refract_index_one_is_identity ⟨0, 0, -1⟩ ⟨0, 0, 1⟩
    (by norm_num [Vec3.dot_def])
    (by norm_num [Vec3.dot_def])
    (by norm_num [RefractDiscriminant, RefractEta, RefractCosI, RefractCosRaw,
      Vec3.dot_def, min_def, max_def])

/-- Claim C5 (amended): each secondary-ray origin is the hit point offset
along the normal by magnitude `1e-3`, with the offset's sign MATCHING the
sign of `outgoing·normal` (minus when the dot is negative), which places the
origin on the side of the surface the outgoing ray is leaving; the rule is
shared by the reflection, refraction and shadow rays via `offsetOrigin`. -/
theorem offsetOrigin_sign_matches (point normal outgoing : Vec3) :
    offsetOrigin point normal outgoing =
      (if outgoing.dot normal < 0 then point.sub (normal.smul 1e-3)
       else point.add (normal.smul 1e-3)) ∧
    0 ≤ ((offsetOrigin point normal outgoing).sub point).dot normal *
      (outgoing.dot normal) := by
  refine ⟨rfl, ?_⟩
  have hnn : 0 ≤ normal.dot normal := by
    simp only [Vec3.dot_def]
    nlinarith [sq_nonneg normal.x, sq_nonneg normal.y, sq_nonneg normal.z]
  unfold offsetOrigin
  split_ifs with h
  · have hc : ((point.sub (normal.smul 1e-3)).sub point).dot normal =
        -(1e-3) * normal.dot normal := by
      simp only [Vec3.sub_def, Vec3.smul_def, Vec3.dot_def]
      ring
    rw [hc]
    nlinarith
  · have h' : 0 ≤ outgoing.dot normal := not_lt.mp h
    have hc' : ((point.add (normal.smul 1e-3)).sub point).dot normal =
        1e-3 * normal.dot normal := by
      simp only [Vec3.sub_def, Vec3.add_def, Vec3.smul_def, Vec3.dot_def]
      ring
    rw [hc']
    nlinarith

/-- Counterexample for C5 as stated: the offset sign is not OPPOSITE the
sign of `outgoing·normal` — with `outgoing·normal = -1 < 0` the code
subtracts `normal*1e-3` rather than adding it. -/
theorem offsetOrigin_not_opposite_sign :
    Vec3.dot ⟨0, 0, -1⟩ ⟨0, 0, 1⟩ < 0 ∧
    offsetOrigin ⟨0, 0, 0⟩ ⟨0, 0, 1⟩ ⟨0, 0, -1⟩ ≠
      Vec3.add ⟨0, 0, 0⟩ (Vec3.smul ⟨0, 0, 1⟩ 1e-3) := by
  constructor
  · norm_num [Vec3.dot_def]
  · intro hEq
    have hz := congrArg Vec3.z hEq
    norm_num [offsetOrigin, Vec3.dot_def, Vec3.sub_def, Vec3.add_def, Vec3.smul_def] at hz

/-- Claim C7: a tangent ray (perpendicular squared distance from the center
exactly `radius²`) with `tca ≥ 0` is reported as an intersection, with
`thc = 0` and `t0 = t1 = tca`. -/
theorem rayIntersect_tangent (s : Sphere) (origin direction : Vec3)
    (hr : 0 < s.radius)
    (htangent : (s.center.sub origin).dot (s.center.sub origin) -
      (s.center.sub origin).dot direction * ((s.center.sub origin).dot direction) =
        s.radius * s.radius)
    (htca : 0 ≤ (s.center.sub origin).dot direction) :
    s.RayIntersect origin direction = some ((s.center.sub origin).dot direction) := by
  simp only [Sphere.RayIntersect]
  rw [htangent]
  rw [if_neg (lt_irrefl _)]
  rw [sub_self, Real.sqrt_zero, sub_zero, add_zero]
  rw [if_neg (not_lt.mpr htca), if_neg (not_lt.mpr htca)]

/-- Witness for C7: the ray along the x-axis grazing the unit sphere at
`(0,1,0)` hits it at `t = 0`. -/
theorem rayIntersect_tangent_witness :
    Sphere.RayIntersect ⟨⟨0, 1, 0⟩, 1, defaultMaterial⟩ ⟨0, 0, 0⟩ ⟨1, 0, 0⟩ = some 0 := by
  have h := rayIntersect_tangent ⟨⟨0, 1, 0⟩, 1, defaultMaterial⟩ ⟨0, 0, 0⟩ ⟨1, 0, 0⟩
    (by norm_num)
    (by norm_num [Vec3.sub_def, Vec3.dot_def])
    (by norm_num [Vec3.sub_def, Vec3.dot_def])
  norm_num [Vec3.sub_def, Vec3.dot_def] at h
  exact h

/-- Claim C8: a ray whose origin is the sphere's center always intersects,
with reported distance `t0 = radius`: `L = 0` gives `tca = 0`, `d = 0`,
`thc = radius`, the near root `-radius` is negative, and the `t0 < 0`
branch substitutes `t1 = radius`. -/
theorem rayIntersect_center_origin (s : Sphere) (direction : Vec3)
    (hr : 0 < s.radius) (hd : direction.dot direction = 1) :
    s.RayIntersect s.center direction = some s.radius := by
  simp only [Sphere.RayIntersect]
  have hL : s.center.sub s.center = ⟨0, 0, 0⟩ := by
    ext <;> simp [Vec3.sub_def]
  rw [hL]
  have h0 : Vec3.dot ⟨0, 0, 0⟩ direction = 0 := by simp [Vec3.dot_def]
  have h00 : Vec3.dot (⟨0, 0, 0⟩ : Vec3) ⟨0, 0, 0⟩ = 0 := by simp [Vec3.dot_def]
  rw [h0, h00]
  rw [if_neg (by nlinarith)]
  have hsq : Real.sqrt (s.radius * s.radius - (0 - 0 * 0)) = s.radius := by
    rw [show s.radius * s.radius - (0 - 0 * 0) = s.radius * s.radius by ring]
    exact Real.sqrt_mul_self hr.le
  rw [hsq]
  rw [if_pos (show (0 : ℝ) - s.radius < 0 by linarith)]
  rw [if_neg (show ¬((0 : ℝ) + s.radius < 0) by push_neg; linarith)]
  norm_num

/-- Witness for C8: a unit sphere queried from its own center reports the
hit at distance 1 (the radius). -/
theorem rayIntersect_center_origin_witness :
    Sphere.RayIntersect ⟨⟨3, 4, 5⟩, 1, defaultMaterial⟩ ⟨3, 4, 5⟩ ⟨0, 0, 1⟩ = some 1 :=
  rayIntersect_center_origin ⟨⟨3, 4, 5⟩, 1, defaultMaterial⟩ ⟨0, 0, 1⟩
    (by norm_num) (by norm_num [Vec3.dot_def])

/-! ## Scene query lemmas: the fold keeps the nearest hit, first wins on ties -/

theorem sceneStep_dist_le (origin direction : Vec3) (st : HitState) (s : Sphere) :
    (SceneStep origin direction st s).dist ≤ st.dist := by
  unfold SceneStep
  cases hray : s.RayIntersect origin direction with
  | none => exact le_refl _
  | some t =>
    dsimp only
    split_ifs with h2
    · exact le_of_lt h2
    · exact le_refl _

theorem sceneFold_dist_le (origin direction : Vec3) :
    ∀ (l : List Sphere) (st : HitState),
      (l.foldl (SceneStep origin direction) st).dist ≤ st.dist := by
  intro l
  induction l with
  | nil => intro st; exact le_refl _
  | cons a l ih =>
    intro st
    simp only [List.foldl_cons]
    exact le_trans (ih _) (sceneStep_dist_le _ _ _ _)

theorem sceneFold_dist_min (origin direction : Vec3) :
    ∀ (l : List Sphere) (st : HitState) (s : Sphere) (t : ℝ),
      s ∈ l → s.RayIntersect origin direction = some t →
      (l.foldl (SceneStep origin direction) st).dist ≤ t := by
  intro l
  induction l with
  | nil => intro st s t hmem _; exact absurd hmem (List.not_mem_nil _)
  | cons a l ih =>
    intro st s t hmem hray
    simp only [List.foldl_cons]
    rcases List.mem_cons.mp hmem with rfl | hmem'
    · have hstep : (SceneStep origin direction st s).dist ≤ t := by
        unfold SceneStep
        rw [hray]
        dsimp only
        split_ifs with h2
        · exact le_refl t
        · exact le_of_not_lt h2
      exact le_trans (sceneFold_dist_le _ _ _ _) hstep
    · exact ih _ _ _ hmem' hray

theorem sceneFold_stable (origin direction : Vec3) :
    ∀ (l : List Sphere) (st : HitState),
      (l.foldl (SceneStep origin direction) st).dist = st.dist →
      l.foldl (SceneStep origin direction) st = st := by
  intro l
  induction l with
  | nil => intro st _; rfl
  | cons a l ih =>
    intro st hdist
    simp only [List.foldl_cons] at hdist ⊢
    have hstep : SceneStep origin direction st a = st := by
      by_contra hne
      have hlt : (SceneStep origin direction st a).dist < st.dist := by
        unfold SceneStep at hne ⊢
        cases hray : a.RayIntersect origin direction with
        | none => rw [hray] at hne; exact absurd rfl hne
        | some t =>
          rw [hray] at hne
          dsimp only at hne ⊢
          split_ifs at hne ⊢ with h2
          · exact h2
          · exact absurd rfl hne
      have hle := sceneFold_dist_le origin direction l (SceneStep origin direction st a)
      rw [hdist] at hle
      exact absurd (lt_of_le_of_lt hle hlt) (lt_irrefl _)
    rw [hstep] at hdist ⊢
    exact ih st hdist

theorem sceneFold_winner (origin direction : Vec3) :
    ∀ (l : List Sphere) (st : HitState),
      (l.foldl (SceneStep origin direction) st).dist < st.dist →
      ∃ l₁ s l₂, l = l₁ ++ s :: l₂ ∧
        s.RayIntersect origin direction =
          some (l.foldl (SceneStep origin direction) st).dist ∧
        (∀ s' ∈ l₁, ∀ t, s'.RayIntersect origin direction = some t →
          (l.foldl (SceneStep origin direction) st).dist < t) ∧
        (l.foldl (SceneStep origin direction) st).point =
          origin.add (direction.smul (l.foldl (SceneStep origin direction) st).dist) ∧
        (l.foldl (SceneStep origin direction) st).normal =
          ((l.foldl (SceneStep origin direction) st).point.sub s.center).normalise ∧
        (l.foldl (SceneStep origin direction) st).material = s.material := by
  intro l
  induction l with
  | nil => intro st h; exact absurd h (lt_irrefl _)
  | cons a l ih =>
    intro st hlt
    simp only [List.foldl_cons] at hlt ⊢
    cases hray : a.RayIntersect origin direction with
    | none =>
      have hstep : SceneStep origin direction st a = st := by
        unfold SceneStep; rw [hray]
      rw [hstep] at hlt ⊢
      obtain ⟨l₁, s, l₂, hdecomp, hs, hbefore, hpoint, hnormal, hmat⟩ := ih st hlt
      refine ⟨a :: l₁, s, l₂, by rw [hdecomp]; rfl, hs, ?_, hpoint, hnormal, hmat⟩
      intro s' hmem t ht
      rcases List.mem_cons.mp hmem with rfl | hmem'
      · rw [hray] at ht; exact absurd ht (by simp)
      · exact hbefore s' hmem' t ht
    | some t =>
      by_cases hcloser : t < st.dist
      · have hstep : SceneStep origin direction st a =
            ⟨t, origin.add (direction.smul t),
              ((origin.add (direction.smul t)).sub a.center).normalise, a.material⟩ := by
          unfold SceneStep; rw [hray]; dsimp only; rw [if_pos hcloser]
        rw [hstep] at hlt ⊢
        by_cases hF : (l.foldl (SceneStep origin direction)
            ⟨t, origin.add (direction.smul t),
              ((origin.add (direction.smul t)).sub a.center).normalise, a.material⟩).dist < t
        · obtain ⟨l₁, s, l₂, hdecomp, hs, hbefore, hpoint, hnormal, hmat⟩ := ih _ hF
          refine ⟨a :: l₁, s, l₂, by rw [hdecomp]; rfl, hs, ?_, hpoint, hnormal, hmat⟩
          intro s' hmem t' ht'
          rcases List.mem_cons.mp hmem with rfl | hmem'
          · rw [hray] at ht'
            have htt : t = t' := by injection ht'
            rw [← htt]
            exact hF
          · exact hbefore s' hmem' t' ht'
        · have hle := sceneFold_dist_le origin direction l
            ⟨t, origin.add (direction.smul t),
              ((origin.add (direction.smul t)).sub a.center).normalise, a.material⟩
          have heq : (l.foldl (SceneStep origin direction)
              ⟨t, origin.add (direction.smul t),
                ((origin.add (direction.smul t)).sub a.center).normalise, a.material⟩).dist =
              t := le_antisymm hle (not_lt.mp hF)
          have hstable := sceneFold_stable origin direction l _ heq
          rw [hstable]
          refine ⟨[], a, l, rfl, by rw [hray], ?_, rfl, rfl, rfl⟩
          intro s' hmem
          exact absurd hmem (List.not_mem_nil _)
      · have hstep : SceneStep origin direction st a = st := by
          unfold SceneStep; rw [hray]; dsimp only; rw [if_neg hcloser]
        rw [hstep] at hlt ⊢
        obtain ⟨l₁, s, l₂, hdecomp, hs, hbefore, hpoint, hnormal, hmat⟩ := ih st hlt
        refine ⟨a :: l₁, s, l₂, by rw [hdecomp]; rfl, hs, ?_, hpoint, hnormal, hmat⟩
        intro s' hmem t' ht'
        rcases List.mem_cons.mp hmem with rfl | hmem'
        · rw [hray] at ht'
          have htt : t = t' := by injection ht'
          rw [← htt]
          exact lt_of_lt_of_le hlt (not_lt.mp hcloser)
        · exact hbefore s' hmem' t' ht'

theorem thousand_lt_FLT_MAX : (1000 : ℝ) < FLT_MAX := by
  norm_num [FLT_MAX]

/-- Claim C4: `SceneIntersect` reports a hit iff some sphere intersects the
ray at a distance below 1000 (equivalently, iff the minimum intersection
distance is below 1000); on a hit, the recorded distance is minimal over all
spheres, the winning sphere is the first in iteration order to attain it
(every sphere before it is strictly farther or misses), the hit point lies
at that distance along the ray, the normal is the normalised vector from the
winner's center to the hit point, and the material is the winner's. -/
theorem sceneIntersect_nearest_hit (origin direction : Vec3) (spheres : List Sphere)
    (p₀ n₀ : Vec3) (m₀ : Material) :
    ((SceneIntersect origin direction spheres p₀ n₀ m₀).1 = true ↔
      ∃ s ∈ spheres, ∃ t, s.RayIntersect origin direction = some t ∧ t < 1000) ∧
    ((SceneIntersect origin direction spheres p₀ n₀ m₀).1 = true →
      (SceneIntersect origin direction spheres p₀ n₀ m₀).2.dist < 1000 ∧
      (∀ s' ∈ spheres, ∀ t, s'.RayIntersect origin direction = some t →
        (SceneIntersect origin direction spheres p₀ n₀ m₀).2.dist ≤ t) ∧
      ∃ l₁ s l₂, spheres = l₁ ++ s :: l₂ ∧
        s.RayIntersect origin direction =
          some (SceneIntersect origin direction spheres p₀ n₀ m₀).2.dist ∧
        (∀ s' ∈ l₁, ∀ t, s'.RayIntersect origin direction = some t →
          (SceneIntersect origin direction spheres p₀ n₀ m₀).2.dist < t) ∧
        (SceneIntersect origin direction spheres p₀ n₀ m₀).2.point =
          origin.add (direction.smul
            (SceneIntersect origin direction spheres p₀ n₀ m₀).2.dist) ∧
        (SceneIntersect origin direction spheres p₀ n₀ m₀).2.normal =
          ((SceneIntersect origin direction spheres p₀ n₀ m₀).2.point.sub
            s.center).normalise ∧
        (SceneIntersect origin direction spheres p₀ n₀ m₀).2.material = s.material) := by
  simp only [SceneIntersect]
  have hbool : ∀ x : ℝ, (if x < 1000 then true else false) = true ↔ x < 1000 := by
    intro x
    split_ifs with h
    · simp [h]
    · simp [h]
  constructor
  · rw [hbool]
    constructor
    · intro hdist
      have hinit : (spheres.foldl (SceneStep origin direction)
          ⟨FLT_MAX, p₀, n₀, m₀⟩).dist < FLT_MAX := lt_trans hdist thousand_lt_FLT_MAX
      obtain ⟨l₁, s, l₂, hdecomp, hs, -, -, -, -⟩ :=
        sceneFold_winner origin direction spheres ⟨FLT_MAX, p₀, n₀, m₀⟩ hinit
      refine ⟨s, ?_, _, hs, hdist⟩
      rw [hdecomp]
      exact List.mem_append_right _ (List.mem_cons_self _ _)
    · rintro ⟨s, hmem, t, hray, ht⟩
      exact lt_of_le_of_lt
        (sceneFold_dist_min origin direction spheres ⟨FLT_MAX, p₀, n₀, m₀⟩ s t hmem hray) ht
  · rw [hbool]
    intro hdist
    have hinit : (spheres.foldl (SceneStep origin direction)
        ⟨FLT_MAX, p₀, n₀, m₀⟩).dist < FLT_MAX := lt_trans hdist thousand_lt_FLT_MAX
    obtain ⟨l₁, s, l₂, hdecomp, hs, hbefore, hpoint, hnormal, hmat⟩ :=
      sceneFold_winner origin direction spheres ⟨FLT_MAX, p₀, n₀, m₀⟩ hinit
    exact ⟨hdist,
      fun s' hmem t ht =>
        sceneFold_dist_min origin direction spheres ⟨FLT_MAX, p₀, n₀, m₀⟩ s' t hmem ht,
      l₁, s, l₂, hdecomp, hs, hbefore, hpoint, hnormal, hmat⟩

/-- Witness for C4: a unit sphere 5 units down the z-axis is hit by the
axial ray, and the full nearest-hit description holds for it. -/
theorem sceneIntersect_nearest_hit_witness :
    (SceneIntersect ⟨0, 0, 0⟩ ⟨0, 0, 1⟩ [⟨⟨0, 0, 5⟩, 1, defaultMaterial⟩]
      ⟨0, 0, 0⟩ ⟨0, 0, 0⟩ defaultMaterial).1 = true ∧
    ((SceneIntersect ⟨0, 0, 0⟩ ⟨0, 0, 1⟩ [⟨⟨0, 0, 5⟩, 1, defaultMaterial⟩]
      ⟨0, 0, 0⟩ ⟨0, 0, 0⟩ defaultMaterial).2.dist < 1000 ∧
      (∀ s' ∈ [(⟨⟨0, 0, 5⟩, 1, defaultMaterial⟩ : Sphere)], ∀ t,
        s'.RayIntersect ⟨0, 0, 0⟩ ⟨0, 0, 1⟩ = some t →
        (SceneIntersect ⟨0, 0, 0⟩ ⟨0, 0, 1⟩ [⟨⟨0, 0, 5⟩, 1, defaultMaterial⟩]
          ⟨0, 0, 0⟩ ⟨0, 0, 0⟩ defaultMaterial).2.dist ≤ t) ∧
      ∃ l₁ s l₂, [(⟨⟨0, 0, 5⟩, 1, defaultMaterial⟩ : Sphere)] = l₁ ++ s :: l₂ ∧
        s.RayIntersect ⟨0, 0, 0⟩ ⟨0, 0, 1⟩ =
          some (SceneIntersect ⟨0, 0, 0⟩ ⟨0, 0, 1⟩ [⟨⟨0, 0, 5⟩, 1, defaultMaterial⟩]
            ⟨0, 0, 0⟩ ⟨0, 0, 0⟩ defaultMaterial).2.dist ∧
        (∀ s' ∈ l₁, ∀ t, s'.RayIntersect ⟨0, 0, 0⟩ ⟨0, 0, 1⟩ = some t →
          (SceneIntersect ⟨0, 0, 0⟩ ⟨0, 0, 1⟩ [⟨⟨0, 0, 5⟩, 1, defaultMaterial⟩]
            ⟨0, 0, 0⟩ ⟨0, 0, 0⟩ defaultMaterial).2.dist < t) ∧
        (SceneIntersect ⟨0, 0, 0⟩ ⟨0, 0, 1⟩ [⟨⟨0, 0, 5⟩, 1, defaultMaterial⟩]
          ⟨0, 0, 0⟩ ⟨0, 0, 0⟩ defaultMaterial).2.point =
          Vec3.add ⟨0, 0, 0⟩ (Vec3.smul ⟨0, 0, 1⟩
            (SceneIntersect ⟨0, 0, 0⟩ ⟨0, 0, 1⟩ [⟨⟨0, 0, 5⟩, 1, defaultMaterial⟩]
              ⟨0, 0, 0⟩ ⟨0, 0, 0⟩ defaultMaterial).2.dist) ∧
        (SceneIntersect ⟨0, 0, 0⟩ ⟨0, 0, 1⟩ [⟨⟨0, 0, 5⟩, 1, defaultMaterial⟩]
          ⟨0, 0, 0⟩ ⟨0, 0, 0⟩ defaultMaterial).2.normal =
          ((SceneIntersect ⟨0, 0, 0⟩ ⟨0, 0, 1⟩ [⟨⟨0, 0, 5⟩, 1, defaultMaterial⟩]
            ⟨0, 0, 0⟩ ⟨0, 0, 0⟩ defaultMaterial).2.point.sub ⟨0, 0, 5⟩).normalise ∧
        (SceneIntersect ⟨0, 0, 0⟩ ⟨0, 0, 1⟩ [⟨⟨0, 0, 5⟩, 1, defaultMaterial⟩]
          ⟨0, 0, 0⟩ ⟨0, 0, 0⟩ defaultMaterial).2.material = defaultMaterial) := by
  have hray : Sphere.RayIntersect ⟨⟨0, 0, 5⟩, 1, defaultMaterial⟩ ⟨0, 0, 0⟩ ⟨0, 0, 1⟩ =
      some 4 := by
    norm_num [Sphere.RayIntersect, Vec3.sub_def, Vec3.dot_def, Real.sqrt_one]
  have htrue : (SceneIntersect ⟨0, 0, 0⟩ ⟨0, 0, 1⟩ [⟨⟨0, 0, 5⟩, 1, defaultMaterial⟩]
      ⟨0, 0, 0⟩ ⟨0, 0, 0⟩ defaultMaterial).1 = true :=
    (sceneIntersect_nearest_hit ⟨0, 0, 0⟩ ⟨0, 0, 1⟩ [⟨⟨0, 0, 5⟩, 1, defaultMaterial⟩]
      ⟨0, 0, 0⟩ ⟨0, 0, 0⟩ defaultMaterial).1.mpr
      ⟨⟨⟨0, 0, 5⟩, 1, defaultMaterial⟩, List.mem_cons_self _ _, 4, hray, by norm_num⟩
  have hfull := (sceneIntersect_nearest_hit ⟨0, 0, 0⟩ ⟨0, 0, 1⟩
    [⟨⟨0, 0, 5⟩, 1, defaultMaterial⟩] ⟨0, 0, 0⟩ ⟨0, 0, 0⟩ defaultMaterial).2 htrue
  obtain ⟨hd, hmin, l₁, s, l₂, hdecomp, hs, hbefore, hpoint, hnormal, hmat⟩ := hfull
  have hsingle : l₁ = [] ∧ s = ⟨⟨0, 0, 5⟩, 1, defaultMaterial⟩ ∧ l₂ = [] := by
    cases l₁ with
    | nil =>
      simp only [List.nil_append, List.cons.injEq] at hdecomp
      exact ⟨rfl, hdecomp.1.symm, hdecomp.2.symm⟩
    | cons b l₁' =>
      simp only [List.cons_append, List.cons.injEq] at hdecomp
      exact absurd hdecomp.2 (by simp)
  obtain ⟨h1, h2, h3⟩ := hsingle
  subst h1 h2 h3
  exact ⟨htrue, hd, hmin, [], ⟨⟨0, 0, 5⟩, 1, defaultMaterial⟩, [], rfl, hs, hbefore,
    hpoint, hnormal, hmat⟩

/-- Claim C10: when `SceneIntersect` rejects the nearest intersection only
because it lies at distance ≥ 1000 (but below the `FLT_MAX` initial value,
i.e. some sphere was intersected and recorded), it returns false yet has
already overwritten the hit point, normal, and material out-parameters with
the rejected intersection's data — the miss result is not atomic with
respect to the outputs. -/
theorem sceneIntersect_miss_not_atomic (origin direction : Vec3) (spheres : List Sphere)
    (p₀ n₀ : Vec3) (m₀ : Material)
    (h1000 : 1000 ≤ (SceneIntersect origin direction spheres p₀ n₀ m₀).2.dist)
    (hrec : (SceneIntersect origin direction spheres p₀ n₀ m₀).2.dist < FLT_MAX) :
    (SceneIntersect origin direction spheres p₀ n₀ m₀).1 = false ∧
    ∃ l₁ s l₂, spheres = l₁ ++ s :: l₂ ∧
      s.RayIntersect origin direction =
        some (SceneIntersect origin direction spheres p₀ n₀ m₀).2.dist ∧
      (SceneIntersect origin direction spheres p₀ n₀ m₀).2.point =
        origin.add (direction.smul
          (SceneIntersect origin direction spheres p₀ n₀ m₀).2.dist) ∧
      (SceneIntersect origin direction spheres p₀ n₀ m₀).2.normal =
        ((SceneIntersect origin direction spheres p₀ n₀ m₀).2.point.sub
          s.center).normalise ∧
      (SceneIntersect origin direction spheres p₀ n₀ m₀).2.material = s.material := by
  simp only [SceneIntersect] at h1000 hrec ⊢
  constructor
  · rw [if_neg (not_lt.mpr h1000)]
  · obtain ⟨l₁, s, l₂, hdecomp, hs, -, hpoint, hnormal, hmat⟩ :=
      sceneFold_winner origin direction spheres ⟨FLT_MAX, p₀, n₀, m₀⟩ hrec
    exact ⟨l₁, s, l₂, hdecomp, hs, hpoint, hnormal, hmat⟩

/-- Witness for C10: a sphere whose near intersection is at distance 1999
(beyond the render cutoff 1000 but within `FLT_MAX`) makes `SceneIntersect`
return false while the point out-parameter has been overwritten from its
initial value `(5,5,5)` to the rejected hit `(0,0,1999)`. -/
theorem sceneIntersect_miss_not_atomic_witness :
    (SceneIntersect ⟨0, 0, 0⟩ ⟨0, 0, 1⟩ [⟨⟨0, 0, 2000⟩, 1, defaultMaterial⟩]
      ⟨5, 5, 5⟩ ⟨5, 5, 5⟩ defaultMaterial).1 = false ∧
    (SceneIntersect ⟨0, 0, 0⟩ ⟨0, 0, 1⟩ [⟨⟨0, 0, 2000⟩, 1, defaultMaterial⟩]
      ⟨5, 5, 5⟩ ⟨5, 5, 5⟩ defaultMaterial).2.point = ⟨0, 0, 1999⟩ ∧
    (SceneIntersect ⟨0, 0, 0⟩ ⟨0, 0, 1⟩ [⟨⟨0, 0, 2000⟩, 1, defaultMaterial⟩]
      ⟨5, 5, 5⟩ ⟨5, 5, 5⟩ defaultMaterial).2.point ≠ ⟨5, 5, 5⟩ := by
  have hray : Sphere.RayIntersect ⟨⟨0, 0, 2000⟩, 1, defaultMaterial⟩ ⟨0, 0, 0⟩ ⟨0, 0, 1⟩ =
      some 1999 := by
    norm_num [Sphere.RayIntersect, Vec3.sub_def, Vec3.dot_def, Real.sqrt_one]
  have hstate : (SceneIntersect ⟨0, 0, 0⟩ ⟨0, 0, 1⟩ [⟨⟨0, 0, 2000⟩, 1, defaultMaterial⟩]
      ⟨5, 5, 5⟩ ⟨5, 5, 5⟩ defaultMaterial).2 =
      ⟨1999, Vec3.add ⟨0, 0, 0⟩ (Vec3.smul ⟨0, 0, 1⟩ 1999),
        ((Vec3.add ⟨0, 0, 0⟩ (Vec3.smul ⟨0, 0, 1⟩ 1999)).sub ⟨0, 0, 2000⟩).normalise,
        defaultMaterial⟩ := by
    simp only [SceneIntersect, List.foldl_cons, List.foldl_nil, SceneStep, hray]
    rw [if_pos (by norm_num [FLT_MAX])]
  refine ⟨?_, ?_, ?_⟩
  · exact (sceneIntersect_miss_not_atomic ⟨0, 0, 0⟩ ⟨0, 0, 1⟩
      [⟨⟨0, 0, 2000⟩, 1, defaultMaterial⟩] ⟨5, 5, 5⟩ ⟨5, 5, 5⟩ defaultMaterial
      (by rw [hstate]; norm_num) (by rw [hstate]; norm_num [FLT_MAX])).1
  · rw [hstate]
    ext <;> norm_num [Vec3.add_def, Vec3.smul_def]
  · rw [hstate]
    intro hEq
    have hz := congrArg Vec3.z hEq
    norm_num [Vec3.add_def, Vec3.smul_def] at hz

/-! ## Recursion bounds (C1) -/

theorem count_step_le (a b p : ℕ) (ha : a + 1 ≤ p) (hb : b + 1 ≤ p) :
    1 + a + b + 1 ≤ p * 2 := by omega

theorem shadow_step_le (c d L m : ℕ) (hc : c + L ≤ m) (hd : d + L ≤ m) :
    L + c + d + L ≤ m * 2 := by omega

theorem castRayCounted_fst (spheres : List Sphere) (lights : List Light) :
    ∀ (k depth : ℕ), MAXIMUM_DEPTH + 1 - depth ≤ k →
    ∀ (origin direction : Vec3),
      (CastRayCounted origin direction spheres lights depth).1 =
        CastRay origin direction spheres lights depth := by
  intro k
  induction k with
  | zero =>
    intro depth hk origin direction
    have hdepth : MAXIMUM_DEPTH < depth := by
      simp only [MAXIMUM_DEPTH] at hk ⊢; omega
    rw [CastRayCounted, CastRay, dif_pos hdepth, dif_pos hdepth]
  | succ k ih =>
    intro depth hk origin direction
    by_cases hdepth : MAXIMUM_DEPTH < depth
    · rw [CastRayCounted, CastRay, dif_pos hdepth, dif_pos hdepth]
    · have hk' : MAXIMUM_DEPTH + 1 - (depth + 1) ≤ k := by
        simp only [MAXIMUM_DEPTH] at hk hdepth ⊢; omega
      rw [CastRayCounted, CastRay, dif_neg hdepth, dif_neg hdepth]
      by_cases hq : (SceneIntersect origin direction spheres ⟨0, 0, 0⟩ ⟨0, 0, 0⟩
          defaultMaterial).1 = false
      · rw [if_pos hq, if_pos hq]
      · rw [if_neg hq, if_neg hq]
        simp only [ih (depth + 1) hk']

theorem castRayCounted_bound (spheres : List Sphere) (lights : List Light) :
    ∀ (k depth : ℕ), MAXIMUM_DEPTH + 1 - depth ≤ k →
    ∀ (origin direction : Vec3),
      (CastRayCounted origin direction spheres lights depth).2.1 + 1 ≤
        2 ^ (MAXIMUM_DEPTH + 1 - depth) ∧
      (CastRayCounted origin direction spheres lights depth).2.2 + lights.length ≤
        2 ^ (MAXIMUM_DEPTH + 1 - depth) * lights.length := by
  intro k
  induction k with
  | zero =>
    intro depth hk origin direction
    have hdepth : MAXIMUM_DEPTH < depth := by
      simp only [MAXIMUM_DEPTH] at hk ⊢; omega
    rw [CastRayCounted, dif_pos hdepth]
    constructor
    · simpa using Nat.one_le_pow _ 2 (by norm_num)
    · simpa using Nat.le_mul_of_pos_left lights.length (Nat.pos_pow_of_pos _ (by norm_num))
  | succ k ih =>
    intro depth hk origin direction
    by_cases hdepth : MAXIMUM_DEPTH < depth
    · rw [CastRayCounted, dif_pos hdepth]
      constructor
      · simpa using Nat.one_le_pow _ 2 (by norm_num)
      · simpa using Nat.le_mul_of_pos_left lights.length (Nat.pos_pow_of_pos _ (by norm_num))
    · have hk' : MAXIMUM_DEPTH + 1 - (depth + 1) ≤ k := by
        simp only [MAXIMUM_DEPTH] at hk hdepth ⊢; omega
      have hpow : 2 ^ (MAXIMUM_DEPTH + 1 - depth) =
          2 ^ (MAXIMUM_DEPTH + 1 - (depth + 1)) * 2 := by
        simp only [MAXIMUM_DEPTH] at hdepth ⊢
        rw [show 4 + 1 - depth = (4 + 1 - (depth + 1)) + 1 from by omega, pow_succ]
      have htwo : 2 ≤ 2 ^ (MAXIMUM_DEPTH + 1 - depth) := by
        rw [hpow]
        have := Nat.one_le_pow (MAXIMUM_DEPTH + 1 - (depth + 1)) 2 (by norm_num)
        omega
      rw [CastRayCounted, dif_neg hdepth]
      by_cases hq : (SceneIntersect origin direction spheres ⟨0, 0, 0⟩ ⟨0, 0, 0⟩
          defaultMaterial).1 = false
      · rw [if_pos hq]
        constructor
        · exact htwo
        · have h1 : (1 : ℕ) * lights.length ≤
              2 ^ (MAXIMUM_DEPTH + 1 - depth) * lights.length :=
            Nat.mul_le_mul_right _ (Nat.one_le_pow _ 2 (by norm_num))
          simpa using h1
      · rw [if_neg hq]
        rw [hpow]
        constructor
        · exact count_step_le _ _ _ (ih (depth + 1) hk' _ _).1 (ih (depth + 1) hk' _ _).1
        · rw [show 2 ^ (MAXIMUM_DEPTH + 1 - (depth + 1)) * 2 * lights.length =
              (2 ^ (MAXIMUM_DEPTH + 1 - (depth + 1)) * lights.length) * 2 from by ring]
          exact shadow_step_le _ _ _ _ (ih (depth + 1) hk' _ _).2 (ih (depth + 1) hk' _ _).2

/-- Claim C1: `CastRay` is total (it is defined by recursion that decreases
the measure `MAXIMUM_DEPTH + 1 - depth`, as witnessed by `CastRayCounted`
computing the same colour), performs work on at most `MAXIMUM_DEPTH + 1`
levels with fan-out 2, and a primary ray (depth 0) causes at most
`2^(MAXIMUM_DEPTH+1) - 1 = 31` scene-intersection queries plus at most one
shadow query per light per hit (at most `31 * |lights|` in total). -/
theorem castRay_query_bounds (origin direction : Vec3) (spheres : List Sphere)
    (lights : List Light) (depth : ℕ) :
    (CastRayCounted origin direction spheres lights depth).1 =
      CastRay origin direction spheres lights depth ∧
    (CastRayCounted origin direction spheres lights depth).2.1 ≤
      2 ^ (MAXIMUM_DEPTH + 1 - depth) - 1 ∧
    (CastRayCounted origin direction spheres lights depth).2.2 ≤
      (2 ^ (MAXIMUM_DEPTH + 1 - depth) - 1) * lights.length ∧
    (CastRayCounted origin direction spheres lights 0).2.1 ≤ 31 ∧
    (CastRayCounted origin direction spheres lights 0).2.2 ≤ 31 * lights.length := by
  have hfst := castRayCounted_fst spheres lights (MAXIMUM_DEPTH + 1 - depth) depth
    (le_refl _) origin direction
  have hbound := castRayCounted_bound spheres lights (MAXIMUM_DEPTH + 1 - depth) depth
    (le_refl _) origin direction
  have hbound0 := castRayCounted_bound spheres lights (MAXIMUM_DEPTH + 1) 0
    (by simp) origin direction
  simp only [Nat.sub_zero] at hbound0
  have hone := Nat.one_le_pow (MAXIMUM_DEPTH + 1 - depth) 2 (by norm_num)
  have h32 : 2 ^ (MAXIMUM_DEPTH + 1) = 32 := by norm_num [MAXIMUM_DEPTH]
  refine ⟨hfst, by omega, ?_, ?_, ?_⟩
  · have h := hbound.2
    have heq : (2 ^ (MAXIMUM_DEPTH + 1 - depth) - 1) * lights.length =
        2 ^ (MAXIMUM_DEPTH + 1 - depth) * lights.length - lights.length := by
      rw [Nat.sub_mul, one_mul]
    rw [heq]
    omega
  · have h := hbound0.1
    omega
  · have h := hbound0.2
    rw [h32] at h
    omega

/-! ## Light-order invariance (C9) -/

theorem castRay_lights_perm_aux (spheres : List Sphere) {lights₁ lights₂ : List Light}
    (hperm : lights₁.Perm lights₂) :
    ∀ (k depth : ℕ), MAXIMUM_DEPTH + 1 - depth ≤ k →
    ∀ (origin direction : Vec3),
      CastRay origin direction spheres lights₁ depth =
        CastRay origin direction spheres lights₂ depth := by
  intro k
  induction k with
  | zero =>
    intro depth hk origin direction
    have hdepth : MAXIMUM_DEPTH < depth := by
      simp only [MAXIMUM_DEPTH] at hk ⊢; omega
    rw [CastRay, CastRay, dif_pos hdepth, dif_pos hdepth]
  | succ k ih =>
    intro depth hk origin direction
    by_cases hdepth : MAXIMUM_DEPTH < depth
    · rw [CastRay, CastRay, dif_pos hdepth, dif_pos hdepth]
    · have hk' : MAXIMUM_DEPTH + 1 - (depth + 1) ≤ k := by
        simp only [MAXIMUM_DEPTH] at hk hdepth ⊢; omega
      rw [CastRay, CastRay, dif_neg hdepth, dif_neg hdepth]
      by_cases hq : (SceneIntersect origin direction spheres ⟨0, 0, 0⟩ ⟨0, 0, 0⟩
          defaultMaterial).1 = false
      · rw [if_pos hq, if_pos hq]
      · rw [if_neg hq, if_neg hq]
        have hsum1 : ∀ (F : Light → ℝ × ℝ),
            ((lights₁.map F).map Prod.fst).sum = ((lights₂.map F).map Prod.fst).sum :=
          fun F => ((hperm.map F).map Prod.fst).sum_eq
        have hsum2 : ∀ (F : Light → ℝ × ℝ),
            ((lights₁.map F).map Prod.snd).sum = ((lights₂.map F).map Prod.snd).sum :=
          fun F => ((hperm.map F).map Prod.snd).sum_eq
        simp only [ih (depth + 1) hk', hsum1, hsum2]

/-- Claim C9: the order of the lights does not affect `CastRay`'s colour —
for any two scenes whose light lists are permutations of each other the
result is identical, because per-light diffuse and specular contributions
are summed. -/
theorem castRay_lights_permutation (origin direction : Vec3) (spheres : List Sphere)
    (lights₁ lights₂ : List Light) (hperm : lights₁.Perm lights₂) (depth : ℕ) :
    CastRay origin direction spheres lights₁ depth =
      CastRay origin direction spheres lights₂ depth :=
  castRay_lights_perm_aux spheres hperm (MAXIMUM_DEPTH + 1 - depth) depth (le_refl _)
    origin direction

/-- Witness for C9: swapping two concrete lights leaves the rendered colour
of a concrete scene unchanged. -/
theorem castRay_lights_permutation_witness :
    CastRay ⟨0, 0, 0⟩ ⟨0, 0, 1⟩ [⟨⟨0, 0, 5⟩, 1, defaultMaterial⟩]
        [⟨⟨1, 2, 3⟩, 1⟩, ⟨⟨4, 5, 6⟩, 2⟩] 0 =
      CastRay ⟨0, 0, 0⟩ ⟨0, 0, 1⟩ [⟨⟨0, 0, 5⟩, 1, defaultMaterial⟩]
        [⟨⟨4, 5, 6⟩, 2⟩, ⟨⟨1, 2, 3⟩, 1⟩] 0 :=
  castRay_lights_permutation _ _ _ _ _ (List.Perm.swap _ _ _) 0

end RayTracer
